import Mathlib

/-
Shallow embedding of the DemoInventarioEras inventory client.

Sources embedded here:
  * src/api.js                       — authedFetch, b64urlDecode, parseJwt, getRoleReliable
  * src/components/Movements.jsx    — allowedByRole / allowedTypes role policy,
                                       selection hydration effect, createMovement
  * src/components/LowStock.jsx     — LowStock load, and the Sales component
                                       (canScanIN / canMakeSale gates, addInventoryFromScan,
                                       sticky-selection refresh effect)
  * src/components/Products.jsx     — Products load
  * src/components/Discrepancies.jsx — Discrepancies load

Modelling conventions:
  * Browser built-ins (atob, decodeURIComponent-based unicode decode, JSON.parse)
    are external collaborators; they are passed as oracle functions returning
    Option, where `none` models a thrown exception (respectively a parse failure).
  * A network response is a record carrying its ok flag, status, status text and
    (already parsed) body; `fetch` itself is external, so each handler is modelled
    as the pure function from the response it received to the state/result it
    produces.  A JavaScript `throw` is an `Except.error`; an async handler that
    issues no request is modelled as returning `none` for the request body.
  * JavaScript strings are `String` where only equality and concatenation matter,
    and `List Char` where character-level operations (split, slice, padding)
    must compute.
  * JavaScript truthiness of JSON values is modelled by `jTruthy`; a missing
    object property (undefined) is modelled as `Option.none` and is falsy.
-/

namespace Inventario

/-! ### Role policy (src/components/Movements.jsx lines 6-12) -/

/-- The `allowedByRole` object literal of Movements.jsx: a partial map from role
name to the list of movement kinds that role may create.  `none` models a JS
property lookup miss (undefined). -/
def allowedByRole (role : String) : Option (List String) :=
  if role = "admin" then some ["IN", "OUT", "ADJ"]
  else if role = "sales" then some ["OUT"]
  else if role = "purchasing" then some ["IN"]
  else if role = "user" then some []
  else none

/-- `allowedByRole[role] || []` of Movements.jsx line 12: unknown roles fall
back to the empty list (in JS a present `[]` is truthy, so the fallback fires
exactly on lookup miss). -/
def allowedTypes (role : String) : List String :=
  (allowedByRole role).getD []

/-! ### Sales component role gates (src/components/LowStock.jsx lines 86-87) -/

/-- `canScanIN = role === 'admin' || role === 'purchasing'` of the Sales
component. -/
def canScanIN (role : String) : Bool :=
  role == "admin" || role == "purchasing"

/-- `canMakeSale = role === 'admin' || role === 'sales'` of the Sales
component. -/
def canMakeSale (role : String) : Bool :=
  role == "admin" || role == "sales"

/-! ### Rows and request bodies -/

/-- A product row as served by `/products_full` and used by the pickers. -/
structure Product where
  id : Nat
  id_code : String
  description : String
  stock : Int
  unit_cost : Option Int
deriving Repr, DecidableEq

/-- The JSON body POSTed to `/movements`. -/
structure MovementBody where
  product_id : Nat
  movement_type : String
  quantity : Int
  unit_cost : Option Int
  movement_reason : Option String
  note : Option String
deriving Repr, DecidableEq

/-- One decoded barcode entry of `scanResult.barcodes` in the Sales component:
`product` is `none` when the decoded string matched no catalog entry. -/
structure Barcode where
  data : String
  symbology : String
  product : Option Product
deriving Repr, DecidableEq

/-! ### addInventoryFromScan (src/components/LowStock.jsx lines 113-129)

The handler either returns early (alert, no request) or POSTs one movement
body to `/movements`.  We model it as the `Option MovementBody` it submits;
`none` means no network request was issued.  `inQty` is the quantity input
field (`none` for an empty field, mirroring `Number(inQty || 1)`), `inCost`
the optional cost field (`inCost === '' ? null : Number(inCost)`). -/

def addInventoryFromScan (token role : String) (b : Barcode)
    (inQty : Option Int) (inCost : Option Int) : Option MovementBody :=
  if token = "" then none
  else if !(canScanIN role) then none
  else match b.product with
    | none => none
    | some p => some
        { product_id := p.id
          movement_type := "IN"
          quantity := inQty.getD 1
          unit_cost := inCost
          movement_reason := some "SCAN_IN"
          note := some ("scan " ++ b.data) }

/-! ### authedFetch (src/api.js lines 18-34)

The fetch itself is external; we model the function from the received response
to the outcome: an ok response is returned unchanged, a non-ok response is
turned into a thrown `Error` whose message interpolates the status, the status
text and `txt.slice(0, 240)`.  The body is kept as `List Char` so that the
240-character slice is the literal `List.take 240`. -/

structure HttpResponse where
  ok : Bool
  status : Nat
  statusText : String
  body : List Char
deriving Repr, DecidableEq

/-- The error message built by authedFetch for a non-ok response. -/
def authedFetchErrMsg (resp : HttpResponse) : String :=
  "HTTP " ++ toString resp.status ++ " " ++ resp.statusText ++ " — "
    ++ String.mk (resp.body.take 240)

/-- authedFetch after the response arrived: return it unchanged when ok,
otherwise throw. -/
def authedFetch (resp : HttpResponse) : Except String HttpResponse :=
  if resp.ok then Except.ok resp
  else Except.error (authedFetchErrMsg resp)

/-! ### List loaders

Each list view loads its rows with the same pattern
`if(r.ok){ setRows(await r.json()) } else { setRows([]) }`:
  * Products.jsx `load` (src/unnamed/part_000 lines 31-41),
  * Discrepancies.jsx `load` (src/unnamed/part_000 lines 193-196),
  * LowStock.jsx `load` (src/components/LowStock.jsx lines 11-14).
We model the response as carrying its parsed JSON body and each loader as the
function from the response to the rows state it sets. -/

structure ListResponse (α : Type) where
  ok : Bool
  json : List α
deriving Repr, DecidableEq

/-- A row of the discrepancies list. -/
structure DiscrepancyRow where
  product_id : Nat
  discrepancy_type : String
  detail : String
deriving Repr, DecidableEq

/-- A row of the low-stock report. -/
structure LowStockRow where
  codigo : String
  stock : Int
  min_stock : Option Int
  faltante : Int
deriving Repr, DecidableEq

/-- Products.jsx `load`: rows set from the response. -/
def productsLoad (r : ListResponse Product) : List Product :=
  if r.ok then r.json else []

/-- Discrepancies.jsx `load`: rows set from the response. -/
def discrepanciesLoad (r : ListResponse DiscrepancyRow) : List DiscrepancyRow :=
  if r.ok then r.json else []

/-- LowStock.jsx `load`: rows set from the response. -/
def lowStockLoad (r : ListResponse LowStockRow) : List LowStockRow :=
  if r.ok then r.json else []

/-! ### Sticky-selection hydration effect
(src/components/Movements.jsx lines 30-37; the Sales component has the
identical effect at src/components/LowStock.jsx lines 159-163)

When a new page of products arrives, the effect merges the matching row's
fields into the selection (`setSelected(prev => ({ ...prev, ...match }))`)
and otherwise leaves the selection alone.  The spread is written out field by
field: every `Product` field of `match` overwrites the corresponding field of
`prev`. -/

def refreshSelected (selected : Option Product) (productRows : List Product) :
    Option Product :=
  match selected with
  | none => none
  | some s =>
    match productRows.find? (fun p => p.id == s.id) with
    | some m => some { s with
        id := m.id
        id_code := m.id_code
        description := m.description
        stock := m.stock
        unit_cost := m.unit_cost }
    | none => some s

/-! ### createMovement (src/components/Movements.jsx lines 134-153)

Guards in source order: no session token, no selected product, movement type
not allowed for the role.  On success the handler POSTs one body to
`/movements`; we model the submitted body, `none` meaning no request. -/

def createMovement (token role : String) (selected : Option Product)
    (mtype : String) (quantity : Int) (unit_cost : Option Int)
    (reason note : String) : Option MovementBody :=
  if token = "" then none
  else match selected with
    | none => none
    | some s =>
      if mtype ∈ allowedTypes role then
        some
          { product_id := s.id
            movement_type := mtype
            quantity := quantity
            unit_cost := unit_cost
            movement_reason := if reason = "" then none else some reason
            note := if note = "" then none else some note }
      else none

/-! ### JSON values and JavaScript truthiness

`JSON.parse` yields arbitrary JSON values (not only objects), so the model
carries a full JSON value type.  `jTruthy` is JS truthiness restricted to
these values; a missing property (undefined) is modelled as `Option.none`
and, where a JS expression uses undefined as a value, as `Json.null` (both
are falsy, which is all the embedded code observes). -/

inductive Json where
  | null : Json
  | bool (b : Bool) : Json
  | num (n : Int) : Json
  | str (s : String) : Json
  | arr (elems : List Json) : Json
  | obj (fields : List (String × Json)) : Json
deriving Repr

/-- The empty JSON object, the value JSON.parse gives the literal text of two
braces and the result of every parseJwt failure path. -/
def emptyObj : Json := Json.obj []

/-- The two-character JSON text of an empty object, the string literal that
b64urlDecode and parseJwt fall back to. -/
def jsonBraces : List Char := "\x7b\x7d".toList

/-- JS property read `j[k]`: a field of an object, undefined (`none`)
otherwise. -/
def jGet (j : Json) (k : String) : Option Json :=
  match j with
  | Json.obj fields => (fields.find? (fun kv => kv.fst == k)).map (fun kv => kv.snd)
  | _ => none

/-- JS truthiness of a JSON value: null, false, 0 and the empty string are
falsy; every array and object is truthy. -/
def jTruthy : Json → Bool
  | Json.null => false
  | Json.bool b => b
  | Json.num n => n != 0
  | Json.str s => !(s == "")
  | Json.arr _ => true
  | Json.obj _ => true

/-- JS index read `j[0]`: the head of an array, the one-character string for a
non-empty string, the own property keyed `"0"` for a plain object (JS coerces
the index 0 to the string key `"0"`), undefined (`none`) otherwise.  The
remaining cases (null and undefined throw in JS, numbers and booleans index
to undefined) are only reached in the source behind a truthiness guard, so
`none` models them. -/
def jIndex0 : Json → Option Json
  | Json.arr elems => elems.head?
  | Json.str s => (s.toList.head?).map (fun c => Json.str (String.mk [c]))
  | Json.obj fields => (fields.find? (fun kv => kv.fst == "0")).map (fun kv => kv.snd)
  | _ => none

/-! ### parseJwt and b64urlDecode (src/api.js lines 71-87)

`token.split('.')` is modelled character-exactly by `splitDot`; `atob`, the
decodeURIComponent-based unicode decode, and `JSON.parse` are browser
built-ins passed as oracles, `none` modelling a thrown exception or parse
failure.  Every `catch` of the source is an explicit `match` on `none`. -/

/-- JS `String.split('.')`: splits on every dot, keeping empty segments, and
yields one segment even for the empty string. -/
def splitDot : List Char → List (List Char)
  | [] => [[]]
  | c :: cs =>
    let r := splitDot cs
    if c = '.' then [] :: r
    else match r with
      | [] => [[c]]
      | s :: rest => (c :: s) :: rest

/-- The deterministic front half of b64urlDecode: translate the base64url
alphabet to base64 (`-`→`+`, `_`→`/`) and pad with `=` until the length is a
multiple of four (the `while (str.length % 4) str += '='` loop). -/
def b64pad (s : List Char) : List Char :=
  let s1 := s.map (fun c => if c = '-' then '+' else if c = '_' then '/' else c)
  s1 ++ List.replicate ((4 - s1.length % 4) % 4) '='

/-- b64urlDecode of src/api.js: run `atob` on the padded input (a throw yields
the braces literal via the outer catch), then attempt the unicode decode,
falling back to the raw `atob` output when that throws (inner catch). -/
def b64urlDecode (atob uniDecode : List Char → Option (List Char))
    (s : List Char) : List Char :=
  match atob (b64pad s) with
  | none => jsonBraces
  | some decoded =>
    match uniDecode decoded with
    | none => decoded
    | some u => u

/-- The text handed to JSON.parse by parseJwt: the decoded second dot-segment,
or the braces literal when the decode came back empty
(`b64urlDecode(parts[1]) || '\x7b\x7d'`). -/
def payloadOf (atob uniDecode : List Char → Option (List Char))
    (token : List Char) : List Char :=
  let raw := b64urlDecode atob uniDecode ((splitDot token).getD 1 [])
  if raw = [] then jsonBraces else raw

/-- parseJwt of src/api.js: fewer than two dot-segments yields the empty
object; otherwise the decoded payload is parsed, a JSON.parse throw being
caught into the empty object. -/
def parseJwt (atob uniDecode : List Char → Option (List Char))
    (jsonParse : List Char → Option Json) (token : List Char) : Json :=
  if (splitDot token).length < 2 then emptyObj
  else
    match jsonParse (payloadOf atob uniDecode token) with
    | none => emptyObj
    | some j => j

/-! ### getRoleReliable (src/api.js lines 90-104)

The stored token is `List Char` (empty = no token).  `authMe` is the oracle
for `authedFetch('/auth/me')` followed by `r.json()`: `none` when the request
or the body parse threw, `some j` for a parsed body.  The result pairs the
value returned (the JS function may return any JSON value found in the
payload) with whether the `/auth/me` network call was made. -/

def getRoleReliable (atob uniDecode : List Char → Option (List Char))
    (jsonParse : List Char → Option Json) (token : List Char)
    (authMe : Option Json) : Json × Bool :=
  if token = [] then (Json.str "user", false)
  else
    let p := parseJwt atob uniDecode jsonParse token
    let roleV := (jGet p "role").getD Json.null
    let rolesV := (jGet p "roles").getD Json.null
    let roles0 := (jIndex0 rolesV).getD Json.null
    if jTruthy roleV || (jTruthy rolesV && jTruthy roles0) then
      ((if jTruthy roleV then roleV else roles0), false)
    else
      match authMe with
      | some j =>
        ((if jTruthy ((jGet j "role").getD Json.null)
            then (jGet j "role").getD Json.null
            else Json.str "user"), true)
      | none => (Json.str "user", true)

/-! ## Claim theorems -/

/-- C1: the client's role-to-permitted-movement-kinds mapping equals the fixed
policy table — admin is permitted exactly IN, OUT and ADJ; purchasing exactly
IN; sales exactly OUT. -/
theorem role_policy_table_c1 :
    allowedTypes "admin" = ["IN", "OUT", "ADJ"]
      ∧ allowedTypes "purchasing" = ["IN"]
      ∧ allowedTypes "sales" = ["OUT"] := by
  refine ⟨?_, ?_, ?_⟩ <;> decide

/-- C2: for every actor role outside the three recognized ones — including
the role `user` and any unrecognized string — the permission lookup fails
closed: the list of allowed movement kinds is empty, so IN, OUT and ADJ are
all denied. -/
theorem authorization_fail_closed_c2 (role : String)
    (h1 : role ≠ "admin") (h2 : role ≠ "purchasing") (h3 : role ≠ "sales") :
    allowedTypes role = [] := by
  by_cases h4 : role = "user" <;>
    simp [allowedTypes, allowedByRole, h1, h2, h3, h4]

/-- Witness for C2: the explicit role `user` and an unrecognized role are both
denied every movement kind. -/
theorem authorization_fail_closed_c2_witness :
    allowedTypes "user" = [] ∧ allowedTypes "guest" = [] :=
  ⟨authorization_fail_closed_c2 "user" (by decide) (by decide) (by decide),
   authorization_fail_closed_c2 "guest" (by decide) (by decide) (by decide)⟩

/-- C3: the Sales component's independent gate encoding agrees with the
Movements component's table for every role: canScanIN holds iff IN is among
the role's allowed kinds, and canMakeSale holds iff OUT is. -/
theorem matrix_encodings_agree_c3 (role : String) :
    ((canScanIN role = true) ↔ "IN" ∈ allowedTypes role)
      ∧ ((canMakeSale role = true) ↔ "OUT" ∈ allowedTypes role) := by
  by_cases h1 : role = "admin" <;> by_cases h2 : role = "sales" <;>
    by_cases h3 : role = "purchasing" <;> by_cases h4 : role = "user" <;>
    simp_all [canScanIN, canMakeSale, allowedTypes, allowedByRole]

/-- Witness for C3: the two encodings agree at the concrete role `sales`. -/
theorem matrix_encodings_agree_c3_witness :
    ((canScanIN "sales" = true) ↔ "IN" ∈ allowedTypes "sales")
      ∧ ((canMakeSale "sales" = true) ↔ "OUT" ∈ allowedTypes "sales") :=
  matrix_encodings_agree_c3 "sales"

/-- C4: addInventoryFromScan issues a movement request only when the scanned
barcode resolved to a product — an unmatched barcode yields no request — and
every request it does issue has movement_type IN and product_id equal to the
resolved product's id. -/
theorem scan_in_request_c4 (token role : String) (b : Barcode)
    (inQty inCost : Option Int) :
    (b.product = none → addInventoryFromScan token role b inQty inCost = none)
      ∧ (∀ req, addInventoryFromScan token role b inQty inCost = some req →
          req.movement_type = "IN"
            ∧ ∃ p, b.product = some p ∧ req.product_id = p.id) := by
  constructor
  · intro h
    unfold addInventoryFromScan
    rw [h]
    split <;> simp
  · intro req h
    unfold addInventoryFromScan at h
    split at h
    · exact absurd h (by simp)
    · split at h
      · exact absurd h (by simp)
      · cases hb : b.product with
        | none => rw [hb] at h; exact absurd h (by simp)
        | some p =>
          rw [hb] at h
          simp only [Option.some_inj] at h
          subst h
          exact ⟨rfl, p, rfl, rfl⟩

/-- Witness for C4: a barcode that matched no product produces no request. -/
theorem scan_in_request_c4_witness :
    addInventoryFromScan "tok" "admin" ⟨"12345", "EAN13", none⟩ none none = none :=
  (scan_in_request_c4 "tok" "admin" ⟨"12345", "EAN13", none⟩ none none).1 rfl

/-- C5: authedFetch returns an ok response unchanged; a non-ok response never
returns normally but throws an Error whose message interpolates the HTTP
status and at most the first 240 characters of the response body. -/
theorem authed_fetch_error_c5 (resp : HttpResponse) :
    (resp.ok = true → authedFetch resp = Except.ok resp)
      ∧ (resp.ok = false →
          authedFetch resp = Except.error (authedFetchErrMsg resp)
            ∧ authedFetchErrMsg resp
                = "HTTP " ++ toString resp.status ++ " " ++ resp.statusText
                    ++ " — " ++ String.mk (resp.body.take 240)
            ∧ (resp.body.take 240).length ≤ 240
            ∧ ∀ r, authedFetch resp ≠ Except.ok r) := by
  constructor
  · intro h; simp [authedFetch, h]
  · intro h
    refine ⟨by simp [authedFetch, h], rfl, ?_, ?_⟩
    · have := List.length_take 240 resp.body
      omega
    · intro r hr
      simp [authedFetch, h] at hr

/-- Witness for C5: an ok response passes through unchanged; a concrete 404
response is turned into the thrown error message. -/
theorem authed_fetch_error_c5_witness :
    authedFetch ⟨true, 200, "OK", []⟩ = Except.ok ⟨true, 200, "OK", []⟩
      ∧ authedFetch ⟨false, 404, "Not Found", "missing".toList⟩
          = Except.error (authedFetchErrMsg ⟨false, 404, "Not Found", "missing".toList⟩) :=
  ⟨(authed_fetch_error_c5 ⟨true, 200, "OK", []⟩).1 rfl,
   ((authed_fetch_error_c5 ⟨false, 404, "Not Found", "missing".toList⟩).2 rfl).1⟩

/-- C6 counterexample: the three list loaders do swallow a failed response —
for a concrete non-ok response whose body would parse to a non-empty row
list, each loader sets its rows to the empty list instead of surfacing the
error. -/
theorem load_swallows_error_c6_cex :
    productsLoad ⟨false, [⟨1, "A1", "widget", 5, some 2⟩]⟩ = []
      ∧ discrepanciesLoad ⟨false, [⟨1, "negative stock", "stock below zero"⟩]⟩ = []
      ∧ lowStockLoad ⟨false, [⟨"A1", 1, some 5, 4⟩]⟩ = [] :=
  ⟨rfl, rfl, rfl⟩

/-- C6 (amended): the list-loading operations of the products, discrepancies
and low-stock views swallow a failed response on the caller's behalf — every
non-ok response is replaced by the empty result set, while an ok response
yields exactly the parsed rows. -/
theorem load_swallows_error_c6 (rp : ListResponse Product)
    (rd : ListResponse DiscrepancyRow) (rl : ListResponse LowStockRow) :
    (rp.ok = false → productsLoad rp = [])
      ∧ (rd.ok = false → discrepanciesLoad rd = [])
      ∧ (rl.ok = false → lowStockLoad rl = [])
      ∧ (rp.ok = true → productsLoad rp = rp.json)
      ∧ (rd.ok = true → discrepanciesLoad rd = rd.json)
      ∧ (rl.ok = true → lowStockLoad rl = rl.json) := by
  refine ⟨?_, ?_, ?_, ?_, ?_, ?_⟩ <;> intro h <;>
    simp [productsLoad, discrepanciesLoad, lowStockLoad, h]

/-- Witness for C6 (amended): a concrete failed products response is replaced
by the empty list, and a concrete ok low-stock response yields its parsed
rows. -/
theorem load_swallows_error_c6_witness :
    productsLoad (⟨false, []⟩ : ListResponse Product) = []
      ∧ lowStockLoad ⟨true, [⟨"A1", 1, some 5, 4⟩]⟩ = [⟨"A1", 1, some 5, 4⟩] :=
  ⟨(load_swallows_error_c6 ⟨false, []⟩ ⟨true, []⟩ ⟨true, []⟩).1 rfl,
   (load_swallows_error_c6 ⟨true, []⟩ ⟨true, []⟩
      ⟨true, [⟨"A1", 1, some 5, 4⟩]⟩).2.2.2.2.2 rfl⟩

/-- C7: the sticky-selection hydration effect is a frame property — with no
selection it does nothing; when no row of the new page carries the selected
id the selection is kept exactly as it was; when such a row exists only the
display fields are refreshed from that row while the selected id is
preserved; and the selection is never dropped by a page load. -/
theorem sticky_selection_c7 (s : Product) (rows : List Product) :
    (refreshSelected none rows = none)
      ∧ (rows.find? (fun p => p.id == s.id) = none →
          refreshSelected (some s) rows = some s)
      ∧ (∀ m, rows.find? (fun p => p.id == s.id) = some m →
          refreshSelected (some s) rows
            = some ⟨s.id, m.id_code, m.description, m.stock, m.unit_cost⟩)
      ∧ (∀ r, refreshSelected (some s) rows = some r → r.id = s.id)
      ∧ (refreshSelected (some s) rows).isSome = true := by
  refine ⟨rfl, ?_, ?_, ?_, ?_⟩
  · intro h; simp [refreshSelected, h]
  · intro m hm
    have hid : m.id = s.id := by simpa using List.find?_some hm
    simp [refreshSelected, hm, hid]
  · intro r hr
    unfold refreshSelected at hr
    dsimp only at hr
    cases hf : rows.find? (fun p => p.id == s.id) with
    | none =>
      rw [hf] at hr
      simp only [Option.some_inj] at hr
      subst hr; rfl
    | some m =>
      rw [hf] at hr
      have hid : m.id = s.id := by simpa using List.find?_some hf
      simp only [Option.some_inj] at hr
      subst hr; simpa using hid
  · unfold refreshSelected
    dsimp only
    cases rows.find? (fun p => p.id == s.id) <;> rfl

/-- Witness for C7: a page containing no row with the selected id leaves a
concrete selection untouched, and a page containing a matching row refreshes
its display fields while keeping the selected id. -/
theorem sticky_selection_c7_witness :
    refreshSelected (some ⟨1, "A1", "w", 0, none⟩) [⟨2, "B2", "x", 3, none⟩]
        = some ⟨1, "A1", "w", 0, none⟩
      ∧ refreshSelected (some ⟨1, "A1", "w", 0, none⟩) [⟨1, "A1", "w", 9, some 4⟩]
        = some ⟨1, "A1", "w", 9, some 4⟩ :=
  ⟨(sticky_selection_c7 ⟨1, "A1", "w", 0, none⟩ [⟨2, "B2", "x", 3, none⟩]).2.1
      (by decide),
   (sticky_selection_c7 ⟨1, "A1", "w", 0, none⟩ [⟨1, "A1", "w", 9, some 4⟩]).2.2.1
      ⟨1, "A1", "w", 9, some 4⟩ (by decide)⟩

/-- C8: createMovement never submits a movement the role may not create — it
issues no network request when the session token is absent, when no product
is selected, or when the chosen movement type is not among the role's allowed
kinds; and any request it does issue carries a movement type the role is
allowed. -/
theorem movement_guard_c8 (token role : String) (selected : Option Product)
    (mtype : String) (quantity : Int) (unit_cost : Option Int)
    (reason note : String) :
    ((token = "" ∨ selected = none ∨ mtype ∉ allowedTypes role) →
        createMovement token role selected mtype quantity unit_cost reason note
          = none)
      ∧ (∀ req,
          createMovement token role selected mtype quantity unit_cost reason note
            = some req →
          token ≠ "" ∧ selected ≠ none ∧ req.movement_type ∈ allowedTypes role) := by
  constructor
  · intro h
    by_cases ht : token = ""
    · simp [createMovement, ht]
    · cases hs : selected with
      | none => simp [createMovement, ht]
      | some s =>
        rcases h with h | h | h
        · exact absurd h ht
        · rw [hs] at h; exact absurd h (by simp)
        · simp [createMovement, ht, hs, h]
  · intro req h
    by_cases ht : token = ""
    · unfold createMovement at h
      rw [if_pos ht] at h
      exact absurd h (by simp)
    · cases hs : selected with
      | none =>
        unfold createMovement at h
        rw [if_neg ht, hs] at h
        exact absurd h (by simp)
      | some s =>
        unfold createMovement at h
        rw [if_neg ht, hs] at h
        dsimp only at h
        by_cases hm : mtype ∈ allowedTypes role
        · rw [if_pos hm] at h
          simp only [Option.some_inj] at h
          subst h
          exact ⟨ht, by simp [hs], hm⟩
        · rw [if_neg hm] at h
          exact absurd h (by simp)

/-- Witness for C8: with role sales and movement type IN (which sales may not
create) no request is issued, even with a session and a selected product. -/
theorem movement_guard_c8_witness :
    createMovement "tok" "sales" (some ⟨1, "A1", "w", 0, none⟩) "IN" 1 none "" ""
      = none :=
  (movement_guard_c8 "tok" "sales" (some ⟨1, "A1", "w", 0, none⟩) "IN" 1 none "" "").1
    (Or.inr (Or.inr (by decide)))

/-- C9: parseJwt is total — for every token string and every behaviour of the
atob, unicode-decode and JSON.parse collaborators (a throw being modelled as
`none`), it returns a JSON value rather than propagating an exception, and
each failure path (fewer than two dot-segments, an atob throw on the decoded
segment, a JSON.parse throw) yields the empty object; in every other case the
result is exactly the parsed payload. -/
theorem parse_jwt_total_c9 (atob uniDecode : List Char → Option (List Char))
    (jsonParse : List Char → Option Json) (token : List Char)
    (hjp : jsonParse jsonBraces = some emptyObj) :
    ((splitDot token).length < 2 →
        parseJwt atob uniDecode jsonParse token = emptyObj)
      ∧ (2 ≤ (splitDot token).length →
          atob (b64pad ((splitDot token).getD 1 [])) = none →
          parseJwt atob uniDecode jsonParse token = emptyObj)
      ∧ (jsonParse (payloadOf atob uniDecode token) = none →
          parseJwt atob uniDecode jsonParse token = emptyObj)
      ∧ (parseJwt atob uniDecode jsonParse token = emptyObj
          ∨ jsonParse (payloadOf atob uniDecode token)
              = some (parseJwt atob uniDecode jsonParse token)) := by
  refine ⟨?_, ?_, ?_, ?_⟩
  · intro h
    simp [parseJwt, h]
  · intro h2 hat
    have hpay : payloadOf atob uniDecode token = jsonBraces := by
      unfold payloadOf b64urlDecode
      rw [hat]
      simp [jsonBraces]
    unfold parseJwt
    rw [if_neg (by omega), hpay, hjp]
  · intro h
    unfold parseJwt
    split
    · rfl
    · rw [h]
  · unfold parseJwt
    split
    · exact Or.inl rfl
    · cases jsonParse (payloadOf atob uniDecode token) with
      | none => exact Or.inl rfl
      | some j => exact Or.inr rfl

/-- Witness for C9: with collaborators whose atob always throws and whose
JSON.parse accepts only the braces literal, a one-segment token and a
two-segment token with undecodable payload both yield the empty object. -/
theorem parse_jwt_total_c9_witness :
    parseJwt (fun _ => none) (fun _ => none)
        (fun s => if s = jsonBraces then some emptyObj else none) "a".toList
      = emptyObj
      ∧ parseJwt (fun _ => none) (fun _ => none)
        (fun s => if s = jsonBraces then some emptyObj else none) "a.b".toList
      = emptyObj :=
  ⟨(parse_jwt_total_c9 (fun _ => none) (fun _ => none)
      (fun s => if s = jsonBraces then some emptyObj else none) "a".toList
      (by simp)).1 (by decide),
   (parse_jwt_total_c9 (fun _ => none) (fun _ => none)
      (fun s => if s = jsonBraces then some emptyObj else none) "a.b".toList
      (by simp)).2.1 (by decide) rfl⟩

/-- C10 counterexample: the token `a.eyJyb2xlIjoiIn0` carries the payload
segment `eyJyb2xlIjoiIn0`, whose base64url decoding (after padding to
`eyJyb2xlIjoiIn0=`) is the JSON text of an object with the single field
`role` bound to the empty string — the oracles below answer exactly as the
real atob, the real unicode decode (the text is plain ASCII) and the real
JSON.parse do on the inputs this trace probes.  The payload therefore does
contain a role claim, yet because the empty string is falsy in JS,
getRoleReliable makes the /auth/me network call (second component true) and
returns the server's role instead of the payload's, so the claim that a
payload containing a role is returned without any network call fails. -/
theorem role_resolution_c10_cex :
    jGet (parseJwt
        (fun s => if s = "eyJyb2xlIjoiIn0=".toList
          then some "\x7b\"role\":\"\"\x7d".toList else none)
        (fun s => some s)
        (fun s => if s = "\x7b\"role\":\"\"\x7d".toList
          then some (Json.obj [("role", Json.str "")]) else none)
        "a.eyJyb2xlIjoiIn0".toList) "role"
      = some (Json.str "")
      ∧ getRoleReliable
        (fun s => if s = "eyJyb2xlIjoiIn0=".toList
          then some "\x7b\"role\":\"\"\x7d".toList else none)
        (fun s => some s)
        (fun s => if s = "\x7b\"role\":\"\"\x7d".toList
          then some (Json.obj [("role", Json.str "")]) else none)
        "a.eyJyb2xlIjoiIn0".toList
        (some (Json.obj [("role", Json.str "sales")]))
        = (Json.str "sales", true) :=
  ⟨rfl, rfl⟩

/-- C10 (amended): getRoleReliable resolves to the role `user` on every
failure path — when no token is stored, and when the payload carries no
truthy role claim and the /auth/me request fails — and when the JWT payload
contains a truthy role value (for example a non-empty role string), or a
truthy roles value whose first element is truthy, it returns that value
without making any network call; a falsy role claim such as the empty string
is treated as absent. -/
theorem role_resolution_c10 (atob uniDecode : List Char → Option (List Char))
    (jsonParse : List Char → Option Json) (token : List Char)
    (authMe : Option Json) (p roleV rolesV roles0 : Json)
    (hp : p = parseJwt atob uniDecode jsonParse token)
    (hrole : roleV = (jGet p "role").getD Json.null)
    (hroles : rolesV = (jGet p "roles").getD Json.null)
    (hr0 : roles0 = (jIndex0 rolesV).getD Json.null) :
    (token = [] →
        getRoleReliable atob uniDecode jsonParse token authMe
          = (Json.str "user", false))
      ∧ (token ≠ [] → jTruthy roleV = true →
          getRoleReliable atob uniDecode jsonParse token authMe = (roleV, false))
      ∧ (token ≠ [] → jTruthy roleV = false → jTruthy rolesV = true →
          jTruthy roles0 = true →
          getRoleReliable atob uniDecode jsonParse token authMe = (roles0, false))
      ∧ (token ≠ [] → jTruthy roleV = false →
          (jTruthy rolesV && jTruthy roles0) = false → authMe = none →
          getRoleReliable atob uniDecode jsonParse token authMe
            = (Json.str "user", true)) := by
  subst hr0 hroles hrole hp
  refine ⟨?_, ?_, ?_, ?_⟩
  · intro h
    simp [getRoleReliable, h]
  · intro h1 h2
    simp [getRoleReliable, h1, h2]
  · intro h1 h2 h3 h4
    simp [getRoleReliable, h1, h2, h3, h4]
  · intro h1 h2 h3 h4
    subst h4
    simp [getRoleReliable, h1, h2, h3]

/-- Witness for C10 (amended): with no stored token the role resolves to
`user` without a network call, and the token `a.eyJyb2xlIjoic2FsZXMifQ` —
whose payload segment base64url-decodes to an object binding `role` to the
non-empty string `sales`, the oracles again answering as the real
collaborators do on the probed inputs — has that role returned directly
without a network call. -/
theorem role_resolution_c10_witness :
    getRoleReliable
        (fun s => if s = "eyJyb2xlIjoic2FsZXMifQ==".toList
          then some "\x7b\"role\":\"sales\"\x7d".toList else none)
        (fun s => some s)
        (fun s => if s = "\x7b\"role\":\"sales\"\x7d".toList
          then some (Json.obj [("role", Json.str "sales")]) else none)
        [] none
      = (Json.str "user", false)
      ∧ getRoleReliable
        (fun s => if s = "eyJyb2xlIjoic2FsZXMifQ==".toList
          then some "\x7b\"role\":\"sales\"\x7d".toList else none)
        (fun s => some s)
        (fun s => if s = "\x7b\"role\":\"sales\"\x7d".toList
          then some (Json.obj [("role", Json.str "sales")]) else none)
        "a.eyJyb2xlIjoic2FsZXMifQ".toList none
      = (Json.str "sales", false) :=
  ⟨(role_resolution_c10
      (fun s => if s = "eyJyb2xlIjoic2FsZXMifQ==".toList
        then some "\x7b\"role\":\"sales\"\x7d".toList else none)
      (fun s => some s)
      (fun s => if s = "\x7b\"role\":\"sales\"\x7d".toList
        then some (Json.obj [("role", Json.str "sales")]) else none)
      [] none
      _ _ _ _ rfl rfl rfl rfl).1 rfl,
   ((role_resolution_c10
      (fun s => if s = "eyJyb2xlIjoic2FsZXMifQ==".toList
        then some "\x7b\"role\":\"sales\"\x7d".toList else none)
      (fun s => some s)
      (fun s => if s = "\x7b\"role\":\"sales\"\x7d".toList
        then some (Json.obj [("role", Json.str "sales")]) else none)
      "a.eyJyb2xlIjoic2FsZXMifQ".toList none
      _ _ _ _ rfl rfl rfl rfl).2.1 (by decide) rfl).trans rfl⟩

end Inventario
